import Mathlib

/-!
Verification of the topic-cache refresh controller of the
rabbitmq-connector repository (src/pkg/openfaas/cacher.go).

The controller crawls an OpenFaaS registry, builds a topic → function
identifier map, publishes it into a cache, and fans out invocations for a
topic over the cached identifiers.  Pure parts of the Go code are embedded
as Lean functions; the external crawler and the cache/builder collaborators
(whose implementations live outside the crawled source) are modelled as
explicit data.
-/

namespace RabbitConnector

/-- A function record as returned by the registry
(`types.FunctionStatus`): a name and an optional annotation map.
The Go annotation map `*map[string]string` is modelled as an optional
association list with lookup by key. -/
structure FunctionStatus where
  name : String
  annotations : Option (List (String × String))
deriving DecidableEq, Repr

/-- Modelled from the spec: the Topic Index Builder
(`FunctionMapBuilder`, implementation not under src/).  It accumulates
(topic, function identifier) associations in append order.  A builder is
the list of associations appended so far. -/
abbrev TopicMapBuilder : Type := List (String × String)

/-- Modelled from the spec: `NewFunctionMapBuilder` returns a fresh, empty
builder. -/
def NewFunctionMapBuilder : TopicMapBuilder := []

/-- Modelled from the spec: `Append(topic, functionIdentifier)` adds one
association at the end, preserving discovery order. -/
def TopicMapBuilder.append (b : TopicMapBuilder) (topic fnId : String) :
    TopicMapBuilder :=
  b ++ [(topic, fnId)]

/-- A published snapshot: an immutable mapping from topic to the ordered
list of associated function identifiers. -/
abbrev Snapshot : Type := String → List String

/-- Modelled from the spec: `Build()` finalizes the builder into an
immutable snapshot; each topic is mapped to its identifiers in append
order, and an unknown topic is mapped to the empty list. -/
def TopicMapBuilder.build (b : TopicMapBuilder) : Snapshot :=
  fun topic => (b.filter (fun p => p.1 = topic)).map Prod.snd

/-- The consumed `FunctionCrawler` capability, modelled as the (pure)
responses the external collaborator gives during one cycle.
`hasNamespaceSupport` is the Go pair `(bool, error)`; the other fallible
operations are `Except` values; `invokeAsync` gives, per function
identifier, the completion status observed by the controller. -/
structure FunctionCrawler where
  hasNamespaceSupport : Bool × Option String
  getNamespaces : Except String (List String)
  getFunctions : String → Except String (List FunctionStatus)
  invokeAsync : String → Except String Unit

/-- Helper for the embedding of Go `strings.Split(s, ",")`: split a
character list around every comma; the result is always non-empty. -/
def splitOnCommaChars : List Char → List (List Char)
  | [] => [[]]
  | c :: rest =>
    match splitOnCommaChars rest with
    | [] => [[c]]
    | h :: t => if c = ',' then [] :: h :: t else (c :: h) :: t

/-- Embedding of Go `strings.Split(s, ",")`: splitting around each comma,
with the empty string yielding `[""]` and no trimming of whitespace. -/
def splitComma (s : String) : List String :=
  (splitOnCommaChars s.data).map fun cs => String.mk cs

/-- Embedding of `Controller.extractTopicsFromAnnotations`: if the record
has an annotation map containing key "topic", split its value on commas
(`strings.Split`); otherwise return no topics. -/
def extractTopicsFromAnnotations (fn : FunctionStatus) : List String :=
  match fn.annotations with
  | none => []
  | some annotations =>
    match annotations.lookup "topic" with
    | none => []
    | some topicNames => splitComma topicNames

/-- The function identifier construction inlined in
`Controller.crawlFunctions`: `fmt.Sprintf("%s.%s", fn.Name, ns)` when
`len(ns) > 0`, else just `fn.Name`. -/
def functionIdentifier (ns name : String) : String :=
  if 0 < ns.length then name ++ "." ++ ns else name

/-- The inner loop body of `Controller.crawlFunctions` for one function:
append every extracted topic with the (possibly namespace-qualified)
identifier. -/
def appendFunctionTopics (ns : String) (b : TopicMapBuilder)
    (fn : FunctionStatus) : TopicMapBuilder :=
  (extractTopicsFromAnnotations fn).foldl
    (fun b topic => b.append topic (functionIdentifier ns fn.name)) b

/-- The function list `found` of `Controller.crawlFunctions` for one
namespace: the fetched list, with a fetch error replaced by the empty
list. -/
def foundFunctions (client : FunctionCrawler) (ns : String) :
    List FunctionStatus :=
  match client.getFunctions ns with
  | Except.error _ => []
  | Except.ok fns => fns

/-- Embedding of `Controller.crawlFunctions`: for each namespace in order,
fetch the function list of the namespace (a fetch error is replaced by
the empty list), and append the topics of each function into the
builder. -/
def crawlFunctions (client : FunctionCrawler) (namespaces : List String)
    (builder : TopicMapBuilder) : TopicMapBuilder :=
  namespaces.foldl
    (fun b ns => (foundFunctions client ns).foldl (appendFunctionTopics ns) b)
    builder

/-- Embedding of `Controller.refreshTick`: choose the namespace list (the real list when
namespace support is on, replaced by `[]` when fetching it fails; a single
pseudo-namespace `""` when support is off), crawl, and publish
`builder.Build()` into the cache.  The returned snapshot is the value
published by `cache.Refresh`. -/
def refreshTick (client : FunctionCrawler)
    (hasNamespaceSupport : Bool) : Snapshot :=
  let builder := NewFunctionMapBuilder
  let namespaces :=
    if hasNamespaceSupport then
      match client.getNamespaces with
      | Except.error _ => ([] : List String)
      | Except.ok nss => nss
    else [""]
  (crawlFunctions client namespaces builder).build

/-- The namespace-support flag read once by `Controller.Start`
(`hasNamespaceSupport, _ := c.client.HasNamespaceSupport(ctx)`): the
boolean component, with the error component ignored.  This one value
drives the initial population and every later ticked cycle. -/
def startedNamespaceSupport (client : FunctionCrawler) : Bool :=
  client.hasNamespaceSupport.1

/-- Embedding of the initial synchronous population done by
`Controller.Start`: run the first `refreshTick` with the flag read at
start. -/
def start (client : FunctionCrawler) : Snapshot :=
  refreshTick client (startedNamespaceSupport client)

/-- Modelled from the spec: the namespace-support check of the crawler
(implementation not under src/) treats a failure to determine support as
"unsupported", so whenever the error component is present the boolean it
reports is `false`. -/
def ReportsUnsupportedOnFailure (client : FunctionCrawler) : Prop :=
  client.hasNamespaceSupport.2.isSome → client.hasNamespaceSupport.1 = false

instance (client : FunctionCrawler) :
    Decidable (ReportsUnsupportedOnFailure client) := by
  unfold ReportsUnsupportedOnFailure; infer_instance

/-- Outcome of one `Controller.Invoke` call: which functions were actually
invoked (in order), the error returned to the caller (none on success),
and the log line emitted. -/
structure InvokeResult where
  invoked : List String
  error : Option String
  log : String
deriving DecidableEq, Repr

/-- The `for` loop of `Controller.Invoke`: invoke each function in order,
waiting for its completion status; stop at the first error.  Returns the
invoked prefix and the error, if any. -/
def invokeLoop (inv : String → Except String Unit) :
    List String → List String × Option String
  | [] => ([], none)
  | fn :: rest =>
    match inv fn with
    | Except.error e => ([fn], some e)
    | Except.ok _ =>
      let r := invokeLoop inv rest
      (fn :: r.1, r.2)

/-- Embedding of `Controller.Invoke(topic, invocation)`: look the topic up in the cache
(`GetCachedValues`), invoke each associated function sequentially, abort
on the first error logging the topic and returning the error, otherwise
log success over the whole list and return nil. -/
def Invoke (client : FunctionCrawler) (cache : Snapshot)
    (topic : String) : InvokeResult :=
  let functions := cache topic
  match invokeLoop client.invokeAsync functions with
  | (called, some e) =>
    { invoked := called
      error := some e
      log := "Invocation for topic " ++ topic ++ " failed due to err " ++ e }
  | (called, none) =>
    { invoked := called
      error := none
      log := "Invocation for topic " ++ topic ++ " finished on "
               ++ toString functions.length ++ " function(s)" }

/-- Index and message of the first failing invocation in a list, if any. -/
def firstFailure (inv : String → Except String Unit) :
    List String → Option (Nat × String)
  | [] => none
  | fn :: rest =>
    match inv fn with
    | Except.error e => some (0, e)
    | Except.ok _ =>
      match firstFailure inv rest with
      | none => none
      | some (i, e) => some (i + 1, e)

/-! Helper lemmas. -/

theorem length_pos_iff_ne_empty (s : String) : 0 < s.length ↔ s ≠ "" := by
  cases s with
  | mk data =>
    rw [← String.length_data]
    simp [List.length_pos, String.ext_iff]

theorem functionIdentifier_eq (ns name : String) :
    functionIdentifier ns name =
      if ns = "" then name else name ++ "." ++ ns := by
  unfold functionIdentifier
  by_cases h : ns = ""
  · subst h; simp
  · have hp : 0 < ns.length := (length_pos_iff_ne_empty ns).mpr h
    simp [hp, h]

theorem foldl_append_singleton {α β : Type} (f : α → β) (l : List α)
    (b : List β) :
    l.foldl (fun acc x => acc ++ [f x]) b = b ++ l.map f := by
  induction l generalizing b with
  | nil => simp
  | cons x l ih => simp [ih]

theorem appendFunctionTopics_eq (ns : String) (b : TopicMapBuilder)
    (fn : FunctionStatus) :
    appendFunctionTopics ns b fn
      = b ++ (extractTopicsFromAnnotations fn).map
          (fun topic => (topic, functionIdentifier ns fn.name)) := by
  unfold appendFunctionTopics TopicMapBuilder.append
  exact foldl_append_singleton
    (fun topic => (topic, functionIdentifier ns fn.name)) _ b

theorem foldl_appendFunctionTopics (ns : String) (fns : List FunctionStatus)
    (b : TopicMapBuilder) :
    fns.foldl (appendFunctionTopics ns) b
      = b ++ fns.flatMap (fun fn =>
          (extractTopicsFromAnnotations fn).map
            (fun topic => (topic, functionIdentifier ns fn.name))) := by
  induction fns generalizing b with
  | nil => simp
  | cons fn fns ih => simp [appendFunctionTopics_eq, ih]

theorem crawlFunctions_eq (client : FunctionCrawler)
    (namespaces : List String) (b : TopicMapBuilder) :
    crawlFunctions client namespaces b
      = b ++ namespaces.flatMap (fun ns =>
          (foundFunctions client ns).flatMap (fun fn =>
            (extractTopicsFromAnnotations fn).map
              (fun topic => (topic, functionIdentifier ns fn.name)))) := by
  induction namespaces generalizing b with
  | nil => simp [crawlFunctions]
  | cons ns namespaces ih =>
    have hstep : crawlFunctions client (ns :: namespaces) b
        = crawlFunctions client namespaces
            ((foundFunctions client ns).foldl (appendFunctionTopics ns) b) :=
      rfl
    rw [hstep, ih, foldl_appendFunctionTopics]
    simp

/-! Claim theorems. -/

/-- Claim C2: for every function discovered during a crawl cycle, the
function identifier appended to the builder equals
`<functionName>.<namespace>` when the current namespace is non-empty, and
equals `<functionName>` with no suffix when the namespace is the empty
pseudo-namespace. -/
theorem crawl_identifier_qualification (ns : String) (b : TopicMapBuilder)
    (fn : FunctionStatus) :
    appendFunctionTopics ns b fn
      = b ++ (extractTopicsFromAnnotations fn).map
          (fun topic =>
            (topic, if ns = "" then fn.name else fn.name ++ "." ++ ns)) := by
  rw [appendFunctionTopics_eq]
  simp [functionIdentifier_eq]

/-- Crawler of the end-to-end scenario of claim C3: registry with
namespaces `["prod", "dev"]`, a function `billing` in `prod` annotated
`topic="order.created"` and a function `billing` in `dev` annotated
`topic="order.created,order.updated"`. -/
def scenarioCrawler : FunctionCrawler where
  hasNamespaceSupport := (true, none)
  getNamespaces := Except.ok ["prod", "dev"]
  getFunctions := fun ns =>
    if ns = "prod" then
      Except.ok [⟨"billing", some [("topic", "order.created")]⟩]
    else if ns = "dev" then
      Except.ok [⟨"billing", some [("topic", "order.created,order.updated")]⟩]
    else Except.ok []
  invokeAsync := fun _ => Except.ok ()

/-- Claim C3: within one crawl cycle namespaces are processed in the order
returned by the crawler and functions within a namespace in the order
returned, so per-topic association lists reflect discovery order; in the
concrete scenario one crawl yields for topic "order.created" the
identifiers "billing.prod" then "billing.dev", for "order.updated" only
"billing.dev", and the empty list for an unknown topic. -/
theorem crawl_discovery_order_scenario :
    (∀ (client : FunctionCrawler) (namespaces : List String)
        (b : TopicMapBuilder),
        crawlFunctions client namespaces b
          = b ++ namespaces.flatMap (fun ns =>
              (foundFunctions client ns).flatMap (fun fn =>
                (extractTopicsFromAnnotations fn).map
                  (fun topic => (topic, functionIdentifier ns fn.name)))))
    ∧ start scenarioCrawler "order.created" = ["billing.prod", "billing.dev"]
    ∧ start scenarioCrawler "order.updated" = ["billing.dev"]
    ∧ start scenarioCrawler "unknown" = [] := by
  refine ⟨crawlFunctions_eq, ?_, ?_, ?_⟩ <;> decide

/-- Claim C4: the comma-separated entries of the "topic" annotation value
become the extracted topics when the annotation is present, the absence
of the annotation or of any annotation map yields zero topics, and a
function annotated `topic="a,b,c"` is appended under exactly the topics
a, b and c, each with the identifier of that function. -/
theorem extract_topics_comma_separated (name ns : String)
    (anns : List (String × String)) (b : TopicMapBuilder)
    (h : anns.lookup "topic" = none) :
    extractTopicsFromAnnotations ⟨name, some [("topic", "a,b,c")]⟩
        = ["a", "b", "c"]
    ∧ appendFunctionTopics ns b ⟨name, some [("topic", "a,b,c")]⟩
        = b ++ [("a", functionIdentifier ns name),
                ("b", functionIdentifier ns name),
                ("c", functionIdentifier ns name)]
    ∧ extractTopicsFromAnnotations ⟨name, none⟩ = []
    ∧ extractTopicsFromAnnotations ⟨name, some anns⟩ = [] := by
  refine ⟨rfl, ?_, rfl, ?_⟩
  · rw [appendFunctionTopics_eq]; rfl
  · simp [extractTopicsFromAnnotations, h]

/-- Witness for claim C4 at a concrete input. -/
theorem extract_topics_comma_separated_witness :
    ([("mode", "dev")] : List (String × String)).lookup "topic" = none
    ∧ (extractTopicsFromAnnotations ⟨"f", some [("topic", "a,b,c")]⟩
          = ["a", "b", "c"]
       ∧ appendFunctionTopics "" [] ⟨"f", some [("topic", "a,b,c")]⟩
          = ([] : TopicMapBuilder)
              ++ [("a", functionIdentifier "" "f"),
                  ("b", functionIdentifier "" "f"),
                  ("c", functionIdentifier "" "f")]
       ∧ extractTopicsFromAnnotations ⟨"f", none⟩ = []
       ∧ extractTopicsFromAnnotations ⟨"f", some [("mode", "dev")]⟩ = []) :=
  ⟨by decide,
   extract_topics_comma_separated "f" "" [("mode", "dev")] [] (by decide)⟩

theorem invokeLoop_firstFailure (inv : String → Except String Unit)
    (fs : List String) (i : Nat) (e : String)
    (h : firstFailure inv fs = some (i, e)) :
    invokeLoop inv fs = (fs.take (i + 1), some e) := by
  induction fs generalizing i with
  | nil => simp [firstFailure] at h
  | cons fn rest ih =>
    cases hfn : inv fn with
    | error err =>
      simp [firstFailure, hfn] at h
      obtain ⟨hi, he⟩ := h
      subst hi he
      simp [invokeLoop, hfn]
    | ok u =>
      cases u
      simp [firstFailure, hfn] at h
      cases hrec : firstFailure inv rest with
      | none => rw [hrec] at h; simp at h
      | some p =>
        obtain ⟨j, f⟩ := p
        rw [hrec] at h
        simp at h
        obtain ⟨hi, he⟩ := h
        subst he
        have := ih j hrec
        simp [invokeLoop, hfn, this, ← hi]

/-- Claim C1: for a topic whose cached function list contains a failing
function, Invoke calls the async-invoke operation sequentially in
snapshot order, stops at the first failure so that exactly the prefix up
to and including the first failing function is invoked, returns that
failure to the caller, and logs the failure identifying the topic. -/
theorem invoke_fail_fast (client : FunctionCrawler) (cache : Snapshot)
    (topic e : String) (i : Nat)
    (h : firstFailure client.invokeAsync (cache topic) = some (i, e)) :
    (Invoke client cache topic).invoked = (cache topic).take (i + 1)
    ∧ (Invoke client cache topic).error = some e
    ∧ (Invoke client cache topic).log
        = "Invocation for topic " ++ topic ++ " failed due to err " ++ e := by
  have hl := invokeLoop_firstFailure client.invokeAsync (cache topic) i e h
  simp [Invoke, hl]

/-- Crawler used to witness claim C1: invoking function "f2" fails with
error "boom", every other invocation succeeds. -/
def failingInvokeCrawler : FunctionCrawler where
  hasNamespaceSupport := (false, none)
  getNamespaces := Except.ok []
  getFunctions := fun _ => Except.ok []
  invokeAsync := fun fn =>
    if fn = "f2" then Except.error "boom" else Except.ok ()

/-- Cache used to witness claim C1: topic "orders" is associated with the
three functions "f1", "f2" and "f3". -/
def threeFunctionCache : Snapshot :=
  fun topic => if topic = "orders" then ["f1", "f2", "f3"] else []

/-- Witness for claim C1 at a concrete input. -/
theorem invoke_fail_fast_witness :
    firstFailure failingInvokeCrawler.invokeAsync (threeFunctionCache "orders")
        = some (1, "boom")
    ∧ ((Invoke failingInvokeCrawler threeFunctionCache "orders").invoked
          = (threeFunctionCache "orders").take (1 + 1)
       ∧ (Invoke failingInvokeCrawler threeFunctionCache "orders").error
          = some "boom"
       ∧ (Invoke failingInvokeCrawler threeFunctionCache "orders").log
          = "Invocation for topic " ++ "orders"
              ++ " failed due to err " ++ "boom") :=
  ⟨by decide,
   invoke_fail_fast failingInvokeCrawler threeFunctionCache "orders" "boom" 1
     (by decide)⟩

/-- Claim C5: when the namespace-support check fails at start, the
controller treats namespace support as unsupported, and every crawl cycle
runs over the single unqualified pseudo-namespace. -/
theorem start_failed_support_check (client : FunctionCrawler)
    (hfail : client.hasNamespaceSupport.2.isSome)
    (hspec : ReportsUnsupportedOnFailure client) :
    startedNamespaceSupport client = false
    ∧ start client
        = (crawlFunctions client [""] NewFunctionMapBuilder).build := by
  have hb : startedNamespaceSupport client = false := hspec hfail
  refine ⟨hb, ?_⟩
  show refreshTick client (startedNamespaceSupport client) = _
  rw [hb]
  rfl

/-- Crawler used to witness claim C5: the namespace-support check fails. -/
def failedCheckCrawler : FunctionCrawler where
  hasNamespaceSupport := (false, some "connection refused")
  getNamespaces := Except.ok ["ns1"]
  getFunctions := fun _ => Except.ok []
  invokeAsync := fun _ => Except.ok ()

/-- Witness for claim C5 at a concrete input. -/
theorem start_failed_support_check_witness :
    (failedCheckCrawler.hasNamespaceSupport.2.isSome
     ∧ ReportsUnsupportedOnFailure failedCheckCrawler)
    ∧ (startedNamespaceSupport failedCheckCrawler = false
       ∧ start failedCheckCrawler
          = (crawlFunctions failedCheckCrawler [""]
              NewFunctionMapBuilder).build) :=
  ⟨⟨by decide, by decide⟩,
   start_failed_support_check failedCheckCrawler (by decide) (by decide)⟩

/-- Claim C6: with namespace support enabled, a failing namespace-listing
fetch makes the cycle proceed with an empty namespace list instead of
aborting, and the snapshot built from zero namespaces is still published
at the end of the cycle, mapping every topic to the empty list. -/
theorem refresh_namespace_fetch_failure (client : FunctionCrawler)
    (e topic : String) (h : client.getNamespaces = Except.error e) :
    refreshTick client true
        = (crawlFunctions client [] NewFunctionMapBuilder).build
    ∧ refreshTick client true topic = [] := by
  have h1 : refreshTick client true
      = (crawlFunctions client [] NewFunctionMapBuilder).build := by
    unfold refreshTick
    rw [h]
    rfl
  exact ⟨h1, by rw [h1]; rfl⟩

/-- Crawler used to witness claim C6: listing namespaces fails. -/
def failedNamespacesCrawler : FunctionCrawler where
  hasNamespaceSupport := (true, none)
  getNamespaces := Except.error "gateway timeout"
  getFunctions := fun _ => Except.ok [⟨"billing", some [("topic", "t")]⟩]
  invokeAsync := fun _ => Except.ok ()

/-- Witness for claim C6 at a concrete input. -/
theorem refresh_namespace_fetch_failure_witness :
    failedNamespacesCrawler.getNamespaces = Except.error "gateway timeout"
    ∧ (refreshTick failedNamespacesCrawler true
          = (crawlFunctions failedNamespacesCrawler []
              NewFunctionMapBuilder).build
       ∧ refreshTick failedNamespacesCrawler true "t" = []) :=
  ⟨rfl,
   refresh_namespace_fetch_failure failedNamespacesCrawler "gateway timeout"
     "t" rfl⟩

/-- Claim C7: a failing function-list fetch for one namespace contributes
an empty function list and does not prevent the remaining namespaces from
contributing to the same snapshot: crawling with the failing namespace
present equals crawling with it removed. -/
theorem crawl_namespace_failure_isolated (client : FunctionCrawler)
    (pre post : List String) (nsBad e : String) (b : TopicMapBuilder)
    (h : client.getFunctions nsBad = Except.error e) :
    crawlFunctions client (pre ++ nsBad :: post) b
      = crawlFunctions client (pre ++ post) b := by
  have hfound : foundFunctions client nsBad = [] := by
    unfold foundFunctions
    rw [h]
  rw [crawlFunctions_eq, crawlFunctions_eq]
  simp [hfound]

/-- Crawler used to witness claim C7: the function listing of namespace
"bad" fails, while namespace "good" lists one annotated function. -/
def failedFunctionsCrawler : FunctionCrawler where
  hasNamespaceSupport := (true, none)
  getNamespaces := Except.ok ["bad", "good"]
  getFunctions := fun ns =>
    if ns = "bad" then Except.error "boom"
    else Except.ok [⟨"billing", some [("topic", "t")]⟩]
  invokeAsync := fun _ => Except.ok ()

/-- Witness for claim C7 at a concrete input. -/
theorem crawl_namespace_failure_isolated_witness :
    failedFunctionsCrawler.getFunctions "bad" = Except.error "boom"
    ∧ crawlFunctions failedFunctionsCrawler ([] ++ "bad" :: ["good"]) []
        = crawlFunctions failedFunctionsCrawler ([] ++ ["good"]) [] :=
  ⟨rfl,
   crawl_namespace_failure_isolated failedFunctionsCrawler [] ["good"] "bad"
     "boom" [] rfl⟩

/-- Claim C8: for a topic whose cache lookup yields zero associated
functions, Invoke returns no error and invokes zero functions. -/
theorem invoke_empty_topic (client : FunctionCrawler) (cache : Snapshot)
    (topic : String) (h : cache topic = []) :
    (Invoke client cache topic).error = none
    ∧ (Invoke client cache topic).invoked = [] := by
  simp [Invoke, h, invokeLoop]

/-- Witness for claim C8 at a concrete input. -/
theorem invoke_empty_topic_witness :
    (fun _ => ([] : List String)) "t" = ([] : List String)
    ∧ ((Invoke failingInvokeCrawler (fun _ => []) "t").error = none
       ∧ (Invoke failingInvokeCrawler (fun _ => []) "t").invoked = []) :=
  ⟨rfl, invoke_empty_topic failingInvokeCrawler (fun _ => []) "t" rfl⟩

/-- Claim C9: splitting the "topic" annotation value on commas does not
trim whitespace, so the value "a, b" yields exactly the topics "a" and
" b", the second keeping its leading space. -/
theorem extract_topics_no_trim (name : String) :
    extractTopicsFromAnnotations ⟨name, some [("topic", "a, b")]⟩
      = ["a", " b"] := rfl

/-- Claim C10: an annotation map containing key "topic" with an empty
value yields exactly one extracted topic, the empty string, and the
function is appended to the builder under the empty-string topic. -/
theorem extract_topics_empty_value (name ns : String) (b : TopicMapBuilder) :
    extractTopicsFromAnnotations ⟨name, some [("topic", "")]⟩ = [""]
    ∧ appendFunctionTopics ns b ⟨name, some [("topic", "")]⟩
        = b ++ [("", functionIdentifier ns name)] := by
  refine ⟨rfl, ?_⟩
  rw [appendFunctionTopics_eq]; rfl

end RabbitConnector
